import Mathlib

/-!
# Single-task polling versus FreeRTOS multitasking (lab 1)

A shallow embedding of `single_task.c` and `multitask.c`.

Every task body is an endless `while (1)` loop.  One pass through such a loop
is modelled as the list of observable calls it makes, in program order:
logging, `gpio_set_level`, `gpio_get_level`, `vTaskDelay` and the store into
the `volatile int dummy`.  The level returned by `gpio_get_level` is an input
of the pass.  The FreeRTOS kernel, the GPIO driver and the `pdMS_TO_TICKS`
conversion are not part of the repository; a delay written
`vTaskDelay(pdMS_TO_TICKS(ms))` is recorded with its millisecond argument and a
delay written `vTaskDelay(n)` with its tick argument.

What the task bodies do by themselves is proved on these lists.  How the four tasks
of `multitask.c` share the processor is decided by the kernel; for the response
latency of the emergency task the scheduler is modelled from the specification, and
the definitions concerned say so.
-/

namespace Lab1

/-! ## Observable calls -/

/-- One observable call made by a task body. -/
inductive Event where
  /-- The call `ESP_LOGI(TAG, msg)`. -/
  | logI (msg : String)
  /-- The call `ESP_LOGW(TAG, msg)`. -/
  | logW (msg : String)
  /-- The call `gpio_set_level(pin, level)`. -/
  | gpioSet (pin : Nat) (level : Nat)
  /-- The call `gpio_get_level(pin)` together with the level it returned. -/
  | gpioGet (pin : Nat) (level : Nat)
  /-- The call `vTaskDelay(pdMS_TO_TICKS(ms))`. -/
  | delayMs (ms : Nat)
  /-- The call `vTaskDelay(ticks)` with a raw tick count. -/
  | delayTicks (ticks : Nat)
  /-- The store `volatile int dummy = value`. -/
  | store (value : Int)
  deriving DecidableEq, Repr

/-- Whether a call is a log call. -/
def Event.isLog : Event → Bool
  | .logI _ => true
  | .logW _ => true
  | _ => false

/-- The macro `GPIO_NUM_0`. -/
def GPIO_NUM_0 : Nat := 0

/-- The macro `LED1_PIN`, that is `GPIO_NUM_2`. -/
def LED1_PIN : Nat := 2

/-- The macro `LED2_PIN`, that is `GPIO_NUM_4`. -/
def LED2_PIN : Nat := 4

/-- The macro `BUTTON_PIN` of `multitask.c`, that is `GPIO_NUM_0`. -/
def BUTTON_PIN : Nat := GPIO_NUM_0

/-! ## Machine arithmetic -/

/-- Reduction of a mathematical integer into the range of a 32-bit two's-complement
`int`, the value a wrapping multiplication leaves in an `int` variable. -/
def wrapInt32 (x : Int) : Int := (x + 2 ^ 31) % 2 ^ 32 - 2 ^ 31

/-- Whether a mathematical integer is representable in a signed 32-bit `int`. -/
def inInt32 (x : Int) : Prop := -(2 ^ 31) ≤ x ∧ x ≤ 2 ^ 31 - 1

instance (x : Int) : Decidable (inInt32 x) := by
  unfold inInt32; exact inferInstance

/-- The value stored by `volatile int dummy = i * i;` for loop index `i`, the product
being reduced as by the 32-bit wrapping multiply of the target (C itself leaves a
signed overflow undefined). -/
def dummy (i : Nat) : Int := wrapInt32 ((i : Int) * (i : Int))

/-! ## Control flow -/

/-- The loop `for (int i = 0; i < n; i++) body(i)`: the calls of `body 0`, then of
`body 1`, up to `body (n - 1)`. -/
def forLoop : Nat → (Nat → List Event) → List Event
  | 0, _ => []
  | n + 1, body => forLoop n body ++ body n

/-! ## Pin state -/

/-- Output level of every GPIO pin, indexed by pin number. -/
abbrev Gpio := Nat → Nat

/-- Effect of `gpio_set_level(pin, level)` on the pin state. -/
def gpio_set_level (g : Gpio) (pin level : Nat) : Gpio :=
  fun p => if p = pin then level else g p

/-- Effect of a single call on the pin state: only `gpio_set_level` changes it. -/
def step (g : Gpio) : Event → Gpio
  | .gpioSet pin level => gpio_set_level g pin level
  | _ => g

/-- Effect of a sequence of calls on the pin state. -/
def exec (g : Gpio) (tr : List Event) : Gpio := tr.foldl step g

/-! ## Measurements on a sequence of calls -/

/-- The pins written by `gpio_set_level`, in program order. -/
def writtenPins : List Event → List Nat
  | [] => []
  | .gpioSet pin _ :: tr => pin :: writtenPins tr
  | _ :: tr => writtenPins tr

/-- Total number of milliseconds requested through `vTaskDelay(pdMS_TO_TICKS(..))`. -/
def delayMsTotal : List Event → Nat
  | [] => 0
  | .delayMs ms :: tr => ms + delayMsTotal tr
  | _ :: tr => delayMsTotal tr

/-- Number of `vTaskDelay(ticks)` calls with exactly the given raw tick count. -/
def yieldCount (ticks : Nat) : List Event → Nat
  | [] => 0
  | .delayTicks n :: tr => (if n = ticks then 1 else 0) + yieldCount ticks tr
  | _ :: tr => yieldCount ticks tr

/-- Number of `vTaskDelay(pdMS_TO_TICKS(..))` calls. -/
def sleepCount : List Event → Nat
  | [] => 0
  | .delayMs _ :: tr => 1 + sleepCount tr
  | _ :: tr => sleepCount tr

/-- For each millisecond delay, in program order, its requested length paired with
the level the given pin holds while the task sleeps, starting from pin state `g`. -/
def delayLevels (pin : Nat) : Gpio → List Event → List (Nat × Nat)
  | _, [] => []
  | g, .delayMs ms :: tr => (ms, g pin) :: delayLevels pin g tr
  | g, e :: tr => delayLevels pin (step g e) tr

/-- Number of `gpio_get_level` calls. -/
def readCount : List Event → Nat
  | [] => 0
  | .gpioGet _ _ :: tr => 1 + readCount tr
  | _ :: tr => readCount tr

/-- Number of stores into `dummy`. -/
def storeCount : List Event → Nat
  | [] => 0
  | .store _ :: tr => 1 + storeCount tr
  | _ :: tr => storeCount tr

/-! ## `multitask.c` -/

namespace Multitask

/-- One pass of the `while (1)` loop of `sensor_task`. -/
def sensor_task_body : List Event :=
  [ .logI "Reading sensor...",
    .gpioSet LED1_PIN 1,
    .delayMs 100,
    .gpioSet LED1_PIN 0,
    .delayMs 900 ]

/-- Body of the `for` loop of `processing_task` at index `i`. -/
def processing_loop_body (i : Nat) : List Event :=
  [.store (dummy i)] ++ (if i % 100000 = 0 then [.delayTicks 1] else [])

/-- The `for` loop of `processing_task`, `i = 0 .. 499999`. -/
def processing_loop : List Event := forLoop 500000 processing_loop_body

/-- One pass of the `while (1)` loop of `processing_task`. -/
def processing_task_body : List Event :=
  [.logI "Processing data..."] ++ processing_loop ++ [.delayMs 500]

/-- One pass of the `while (1)` loop of `actuator_task`. -/
def actuator_task_body : List Event :=
  [ .logI "Controlling actuator...",
    .gpioSet LED2_PIN 1,
    .delayMs 200,
    .gpioSet LED2_PIN 0,
    .delayMs 800 ]

/-- One pass of the `while (1)` loop of `emergency_task`, where `level` is the value
returned by `gpio_get_level(BUTTON_PIN)` in that pass. -/
def emergency_task_body (level : Nat) : List Event :=
  [.gpioGet BUTTON_PIN level]
  ++ (if level = 0 then
        [ .logW "EMERGENCY! Button pressed - Immediate response!",
          .gpioSet LED1_PIN 1,
          .gpioSet LED2_PIN 1,
          .delayMs 100,
          .gpioSet LED1_PIN 0,
          .gpioSet LED2_PIN 0 ]
      else [])
  ++ [.delayMs 10]

/-- The four task functions of `multitask.c`. -/
inductive TaskFn where
  | sensor_task
  | processing_task
  | actuator_task
  | emergency_task
  deriving DecidableEq, Repr

/-- The field `mode` of `gpio_config_t`. -/
inductive GpioMode where
  | GPIO_MODE_INPUT
  | GPIO_MODE_OUTPUT
  deriving DecidableEq, Repr

/-- A call made by `app_main`. -/
inductive StartupCall where
  /-- The call `gpio_config(&conf)`; interrupts are disabled in both configurations. -/
  | gpio_config (mode : GpioMode) (pin_bit_mask : Nat) (pull_up_en pull_down_en : Nat)
  /-- The call `ESP_LOGI(TAG, msg)`. -/
  | logI (msg : String)
  /-- The call `xTaskCreate(fn, name, stack, NULL, priority, NULL)`. -/
  | xTaskCreate (fn : TaskFn) (name : String) (stackDepth : Nat) (priority : Nat)
  deriving Repr

/-- The calls of `app_main`, in program order. -/
def app_main : List StartupCall :=
  [ .gpio_config .GPIO_MODE_OUTPUT (2 ^ LED1_PIN ||| 2 ^ LED2_PIN) 0 0,
    .gpio_config .GPIO_MODE_INPUT (2 ^ BUTTON_PIN) 1 0,
    .logI "Multitasking System Started",
    .xTaskCreate .sensor_task "sensor" 2048 2,
    .xTaskCreate .processing_task "processing" 2048 1,
    .xTaskCreate .actuator_task "actuator" 2048 2,
    .xTaskCreate .emergency_task "emergency" 2048 5 ]

/-- The tasks registered by a sequence of startup calls, each with the priority
passed to `xTaskCreate`. -/
def createdTasks : List StartupCall → List (TaskFn × Nat)
  | [] => []
  | .xTaskCreate fn _ _ priority :: cs => (fn, priority) :: createdTasks cs
  | _ :: cs => createdTasks cs

/-- The priority with which `app_main` registers a task function, if it does. -/
def priorityOf (fn : TaskFn) : Option Nat :=
  ((createdTasks app_main).find? (fun p => p.1 = fn)).map Prod.snd

/-! ### The scheduler

`multitask.c` only registers its four task functions; what runs them is the FreeRTOS
kernel behind `xTaskCreate` and `vTaskDelay`, which is not among the sources.  The
definitions of this section follow the scheduling model of the specification
(sections 3 to 5 and the glossary): one processor, fixed priorities, preemption at
every tick, timed sleeps.  Time is counted in milliseconds, `button t` is the level
of the button pin at time `t`, and the processor speed, which the specification leaves
open, is a parameter: the number of loop rounds the processor completes in one tick.
Calls other than the store of a loop round take no processor time. -/

/-- Modelled from the spec: the length in milliseconds of one scheduler tick, the
quantum at which the scheduler re-evaluates which task runs, "10ms in the demonstrated
configuration"; the tick rate is kernel configuration missing from the sources. -/
def tickMs : Nat := 10

/-- Modelled from the spec: the run-time state the missing kernel keeps for a
registered task.  The task is Sleeping while the time is before `wakeAt` and Ready
from then on; `pending` holds the calls of its current pass that it has not made yet,
so that its progress is preserved while another task runs. -/
structure TaskRt where
  /-- The time from which the task is eligible to run. -/
  wakeAt : Nat
  /-- The calls of the current pass still to be made. -/
  pending : List Event

/-- Modelled from the spec: the state of the missing scheduler, with the current
time, the state of every task, the output pins and the calls made so far, each with
the time at which it was made and the task that made it. -/
structure Sched where
  /-- The time of the current tick. -/
  now : Nat
  /-- The state of each task. -/
  rt : TaskFn → TaskRt
  /-- The levels of the output pins. -/
  gpio : Gpio
  /-- The calls made so far, oldest first. -/
  log : List (Nat × TaskFn × Event)

/-- The calls of one pass of the `while (1)` loop of a task function, where `level`
is the button level at the start of the pass (only `emergency_task` reads it, as the
first call of its pass). -/
def passOf : TaskFn → Nat → List Event
  | .sensor_task, _ => sensor_task_body
  | .processing_task, _ => processing_task_body
  | .actuator_task, _ => actuator_task_body
  | .emergency_task, level => emergency_task_body level

/-- Modelled from the spec: how a task stops running within a tick of the missing
scheduler: by a timed sleep or yield, at the end of its pass, or because the
processor time of the tick is used up. -/
inductive Outcome where
  | slept
  | passDone
  | cpuUsedUp
  deriving DecidableEq, Repr

/-- Modelled from the spec: what a run of a task within a tick of the missing scheduler
leaves behind. -/
structure RunResult where
  /-- How the run ended. -/
  outcome : Outcome
  /-- The state of the task after the run. -/
  rt : TaskRt
  /-- The loop rounds the processor can still complete in this tick. -/
  budget : Nat
  /-- The levels of the output pins after the run. -/
  gpio : Gpio
  /-- The calls made so far, those of the run included. -/
  log : List (Nat × TaskFn × Event)

/-- Modelled from the spec: the missing kernel running the calls of task `fn` at time
`now`.  A timed sleep `vTaskDelay(pdMS_TO_TICKS(ms))` makes the task ineligible until
`ms` milliseconds have elapsed; the yield `vTaskDelay(n)` cedes the processor for `n`
ticks; a store is one loop round and needs processor time, of which `budget` rounds
are left in this tick; every other call takes no time. -/
def runCalls (now : Nat) (fn : TaskFn) (wake : Nat) :
    List Event → Nat → Gpio → List (Nat × TaskFn × Event) → RunResult
  | [], budget, g, log => ⟨.passDone, ⟨wake, []⟩, budget, g, log⟩
  | .delayMs ms :: rest, budget, g, log =>
    ⟨.slept, ⟨now + ms, rest⟩, budget, g, log ++ [(now, fn, .delayMs ms)]⟩
  | .delayTicks n :: rest, budget, g, log =>
    ⟨.slept, ⟨now + n * tickMs, rest⟩, budget, g, log ++ [(now, fn, .delayTicks n)]⟩
  | .store v :: rest, 0, g, log => ⟨.cpuUsedUp, ⟨wake, .store v :: rest⟩, 0, g, log⟩
  | .store v :: rest, budget + 1, g, log =>
    runCalls now fn wake rest budget g (log ++ [(now, fn, .store v)])
  | .logI msg :: rest, budget, g, log =>
    runCalls now fn wake rest budget g (log ++ [(now, fn, .logI msg)])
  | .logW msg :: rest, budget, g, log =>
    runCalls now fn wake rest budget g (log ++ [(now, fn, .logW msg)])
  | .gpioSet pin level :: rest, budget, g, log =>
    runCalls now fn wake rest budget (gpio_set_level g pin level)
      (log ++ [(now, fn, .gpioSet pin level)])
  | .gpioGet pin level :: rest, budget, g, log =>
    runCalls now fn wake rest budget g (log ++ [(now, fn, .gpioGet pin level)])

/-- Modelled from the spec: the missing scheduler selecting the task to run.  Among
the Ready tasks the one with the highest priority is selected; a tie goes to the task
that became Ready first and then to the task registered first. -/
def pickFrom (now : Nat) (rt : TaskFn → TaskRt) :
    List (TaskFn × Nat) → Option (TaskFn × Nat)
  | [] => none
  | (fn, p) :: rest =>
    if (rt fn).wakeAt ≤ now then
      match pickFrom now rt rest with
      | some (fn', p') =>
        if p < p' ∨ (p = p' ∧ (rt fn').wakeAt < (rt fn).wakeAt) then some (fn', p')
        else some (fn, p)
      | none => some (fn, p)
    else pickFrom now rt rest

/-- Modelled from the spec: the missing kernel giving the processor to task `fn`, which
resumes its pending calls or, at the top of its `while (1)` loop, starts a new pass. -/
def runTask (button : Nat → Nat) (s : Sched) (fn : TaskFn) (budget : Nat) : RunResult :=
  runCalls s.now fn (s.rt fn).wakeAt
    (match (s.rt fn).pending with
      | [] => passOf fn (button s.now)
      | e :: rest => e :: rest)
    budget s.gpio s.log

/-- Modelled from the spec: the state of the missing scheduler after a run of task
`fn`. -/
def commit (s : Sched) (fn : TaskFn) (r : RunResult) : Sched :=
  { s with rt := Function.update s.rt fn r.rt, gpio := r.gpio, log := r.log }

/-- Modelled from the spec: the missing scheduler within one tick.  The Ready task of
the highest priority, taken with its priority from the `xTaskCreate` calls of
`app_main`, runs until it sleeps; then the next one runs, until no task is Ready or
the processor time of the tick is used up. -/
def dispatch (button : Nat → Nat) : Nat → Nat → Sched → Sched
  | 0, _, s => s
  | fuel + 1, budget, s =>
    match pickFrom s.now s.rt (createdTasks app_main) with
    | none => s
    | some (fn, _) =>
      if (runTask button s fn budget).outcome = .cpuUsedUp then
        commit s fn (runTask button s fn budget)
      else
        dispatch button fuel (runTask button s fn budget).budget
          (commit s fn (runTask button s fn budget))

end Multitask

/-! ## `single_task.c` -/

namespace SingleTask

/-- Body of the `for` loop of the processing phase at index `i`. -/
def processing_loop_body (i : Nat) : List Event := [.store (dummy i)]

/-- The `for` loop of the processing phase, `i = 0 .. 999999`. -/
def processing_loop : List Event := forLoop 1000000 processing_loop_body

/-- One pass of the `while (1)` loop of `app_main`, where `level` is the value
returned by `gpio_get_level(GPIO_NUM_0)` in that pass. -/
def app_main_body (level : Nat) : List Event :=
  [ .logI "Reading sensor...",
    .gpioSet LED1_PIN 1,
    .delayMs 500,
    .gpioSet LED1_PIN 0,
    .delayMs 500,
    .logI "Processing data..." ]
  ++ processing_loop
  ++ [ .logI "Controlling actuator...",
       .gpioSet LED2_PIN 1,
       .delayMs 300,
       .gpioSet LED2_PIN 0,
       .delayMs 300,
       .gpioGet GPIO_NUM_0 level ]
  ++ (if level = 0 then [.logW "Button pressed! (Delayed response)"] else [])

end SingleTask

/-! ## Lemmas on sequences of calls -/

theorem writtenPins_append (a b : List Event) :
    writtenPins (a ++ b) = writtenPins a ++ writtenPins b := by
  induction a with
  | nil => rfl
  | cons e a ih => cases e <;> simp [writtenPins, ih]

theorem delayMsTotal_append (a b : List Event) :
    delayMsTotal (a ++ b) = delayMsTotal a + delayMsTotal b := by
  induction a with
  | nil => simp [delayMsTotal]
  | cons e a ih => cases e <;> simp [delayMsTotal, ih, Nat.add_assoc]

theorem yieldCount_append (t : Nat) (a b : List Event) :
    yieldCount t (a ++ b) = yieldCount t a + yieldCount t b := by
  induction a with
  | nil => simp [yieldCount]
  | cons e a ih => cases e <;> simp [yieldCount, ih, Nat.add_assoc]

theorem sleepCount_append (a b : List Event) :
    sleepCount (a ++ b) = sleepCount a + sleepCount b := by
  induction a with
  | nil => simp [sleepCount]
  | cons e a ih => cases e <;> simp [sleepCount, ih, Nat.add_assoc]

theorem readCount_append (a b : List Event) :
    readCount (a ++ b) = readCount a + readCount b := by
  induction a with
  | nil => simp [readCount]
  | cons e a ih => cases e <;> simp [readCount, ih, Nat.add_assoc]

theorem storeCount_append (a b : List Event) :
    storeCount (a ++ b) = storeCount a + storeCount b := by
  induction a with
  | nil => simp [storeCount]
  | cons e a ih => cases e <;> simp [storeCount, ih, Nat.add_assoc]

/-- A sequence of calls without `gpio_set_level` leaves every pin as it was. -/
theorem exec_of_writtenPins_nil (tr : List Event) (h : writtenPins tr = []) (g : Gpio) :
    exec g tr = g := by
  induction tr generalizing g with
  | nil => rfl
  | cons e tr ih =>
    cases e <;> simp [writtenPins] at h <;> simpa [exec, step] using ih h g

/-- A pin that is not written keeps its level. -/
theorem exec_of_not_mem_writtenPins (tr : List Event) (p : Nat)
    (h : p ∉ writtenPins tr) (g : Gpio) : exec g tr p = g p := by
  induction tr generalizing g with
  | nil => rfl
  | cons e tr ih =>
    cases e with
    | gpioSet pin level =>
      simp only [writtenPins, List.mem_cons, not_or] at h
      have := ih h.2 (gpio_set_level g pin level)
      simp only [exec, List.foldl_cons, step] at this ⊢
      rw [this]
      simp [gpio_set_level, h.1]
    | _ => simpa [exec, step, writtenPins] using ih (by simpa [writtenPins] using h) g

/-! ## Lemmas on `forLoop` -/

theorem writtenPins_forLoop (n : Nat) (body : Nat → List Event)
    (h : ∀ i, writtenPins (body i) = []) : writtenPins (forLoop n body) = [] := by
  induction n with
  | zero => rfl
  | succ n ih => simp [forLoop, writtenPins_append, ih, h]

theorem delayMsTotal_forLoop (n : Nat) (body : Nat → List Event)
    (h : ∀ i, delayMsTotal (body i) = 0) : delayMsTotal (forLoop n body) = 0 := by
  induction n with
  | zero => rfl
  | succ n ih => simp [forLoop, delayMsTotal_append, ih, h]

theorem readCount_forLoop (n : Nat) (body : Nat → List Event)
    (h : ∀ i, readCount (body i) = 0) : readCount (forLoop n body) = 0 := by
  induction n with
  | zero => rfl
  | succ n ih => simp [forLoop, readCount_append, ih, h]

theorem storeCount_forLoop (n : Nat) (body : Nat → List Event)
    (h : ∀ i, storeCount (body i) = 1) : storeCount (forLoop n body) = n := by
  induction n with
  | zero => rfl
  | succ n ih => simp [forLoop, storeCount_append, ih, h]

/-- Every call of round `i` is a call of a loop with more than `i` rounds. -/
theorem mem_forLoop (n : Nat) (body : Nat → List Event) (i : Nat) (e : Event)
    (hi : i < n) (he : e ∈ body i) : e ∈ forLoop n body := by
  induction n with
  | zero => omega
  | succ n ih =>
    rw [forLoop, List.mem_append]
    rcases Nat.lt_succ_iff_lt_or_eq.mp hi with h | h
    · exact Or.inl (ih h)
    · subst h; exact Or.inr he

/-- A loop that runs at least once starts with the calls of its first pass. -/
theorem forLoop_head (n : Nat) (body : Nat → List Event) :
    ∃ rest, forLoop (n + 1) body = body 0 ++ rest := by
  induction n with
  | zero => exact ⟨[], by simp [forLoop]⟩
  | succ n ih =>
    obtain ⟨rest, hrest⟩ := ih
    exact ⟨rest ++ body (n + 1), by rw [forLoop, hrest, List.append_assoc]⟩

/-- Number of one-tick yields in the first `n` rounds of the processing loop. -/
theorem yieldCount_processing_forLoop (n : Nat) :
    yieldCount 1 (forLoop n Multitask.processing_loop_body) = (n + 99999) / 100000 := by
  induction n with
  | zero => rfl
  | succ n ih =>
    rw [forLoop, yieldCount_append, ih]
    by_cases h : n % 100000 = 0
    · simp [Multitask.processing_loop_body, h, yieldCount]; omega
    · simp [Multitask.processing_loop_body, h, yieldCount]; omega

/-! ## Lemmas on the emergency task -/

namespace Multitask

theorem delayMsTotal_emergency_task_body (level : Nat) :
    delayMsTotal (emergency_task_body level) = if level = 0 then 110 else 10 := by
  by_cases h : level = 0 <;> simp [emergency_task_body, h, delayMsTotal]

end Multitask

/-! ## Task priorities -/

namespace Multitask

theorem createdTasks_app_main :
    createdTasks app_main
      = [(.sensor_task, 2), (.processing_task, 1), (.actuator_task, 2), (.emergency_task, 5)] :=
  rfl

/-- C2: `app_main` registers exactly four tasks; the priority of the emergency task
is strictly greater than the priority of each of the other three, the priority of the
processing task is strictly less than the priority of each of the other three, and so
processing < sensor < emergency and processing < actuator < emergency. -/
theorem emergency_highest_processing_lowest :
    (createdTasks app_main).map Prod.fst
      = [.sensor_task, .processing_task, .actuator_task, .emergency_task] ∧
    ∃ ps pp pa pe,
      priorityOf .sensor_task = some ps ∧ priorityOf .processing_task = some pp ∧
      priorityOf .actuator_task = some pa ∧ priorityOf .emergency_task = some pe ∧
      (∀ fn p, (fn, p) ∈ createdTasks app_main → fn ≠ .emergency_task → p < pe) ∧
      (∀ fn p, (fn, p) ∈ createdTasks app_main → fn ≠ .processing_task → pp < p) ∧
      pp < ps ∧ ps < pe ∧ pp < pa ∧ pa < pe := by
  refine ⟨rfl, 2, 1, 2, 5, rfl, rfl, rfl, rfl, ?_, ?_, by decide, by decide, by decide,
    by decide⟩
  · intro fn p hmem hne
    rw [createdTasks_app_main] at hmem
    simp only [List.mem_cons, Prod.mk.injEq, List.mem_nil_iff, or_false] at hmem
    rcases hmem with ⟨_, rfl⟩ | ⟨_, rfl⟩ | ⟨_, rfl⟩ | ⟨rfl, rfl⟩
    · decide
    · decide
    · decide
    · exact absurd rfl hne
  · intro fn p hmem hne
    rw [createdTasks_app_main] at hmem
    simp only [List.mem_cons, Prod.mk.injEq, List.mem_nil_iff, or_false] at hmem
    rcases hmem with ⟨_, rfl⟩ | ⟨rfl, rfl⟩ | ⟨_, rfl⟩ | ⟨_, rfl⟩
    · decide
    · exact absurd rfl hne
    · decide
    · decide

/-- C3, as stated, fails: the sensor task and the actuator task are distinct tasks
registered with the same priority, so the priorities are not pairwise distinct. -/
theorem sensor_actuator_priority_tie :
    TaskFn.sensor_task ≠ TaskFn.actuator_task ∧
    priorityOf .sensor_task = priorityOf .actuator_task ∧
    ¬ ((createdTasks app_main).map Prod.snd).Nodup := by
  refine ⟨by decide, rfl, ?_⟩
  rw [createdTasks_app_main]
  decide

/-- C3, amended: two tasks registered by `app_main` have the same priority exactly
when they are the same task or they are the sensor task and the actuator task (both
priority 2); the emergency task (5) and the processing task (1) share their priority
with no other task. -/
theorem priorities_distinct_except_sensor_actuator (a b : TaskFn) :
    priorityOf a = priorityOf b ↔
      (a = b ∨ (a = .sensor_task ∧ b = .actuator_task) ∨
        (a = .actuator_task ∧ b = .sensor_task)) := by
  cases a <;> cases b <;> decide

end Multitask

/-! ## Pins and periods of the periodic tasks -/

namespace Multitask

theorem writtenPins_processing_loop : writtenPins processing_loop = [] := by
  apply writtenPins_forLoop
  intro i
  by_cases h : i % 100000 = 0 <;> simp [processing_loop_body, h, writtenPins]

theorem writtenPins_processing_task_body : writtenPins processing_task_body = [] := by
  unfold processing_task_body
  rw [writtenPins_append, writtenPins_append, writtenPins_processing_loop]
  rfl

/-- C6: one pass of `sensor_task` writes LED1 (GPIO 2) only and leaves every other
pin, LED2 among them, at its level; one pass of `actuator_task` writes LED2 (GPIO 4)
only and leaves every other pin, LED1 among them, at its level; one pass of
`processing_task` writes no pin and leaves the whole pin state as it was; so the sets
of pins written by the three tasks are pairwise disjoint. -/
theorem tasks_own_distinct_pins :
    LED1_PIN = 2 ∧ LED2_PIN = 4 ∧
    writtenPins sensor_task_body = [LED1_PIN, LED1_PIN] ∧
    (∀ (g : Gpio) (p : Nat), p ≠ LED1_PIN → exec g sensor_task_body p = g p) ∧
    (∀ g : Gpio, exec g sensor_task_body LED2_PIN = g LED2_PIN) ∧
    writtenPins actuator_task_body = [LED2_PIN, LED2_PIN] ∧
    (∀ (g : Gpio) (p : Nat), p ≠ LED2_PIN → exec g actuator_task_body p = g p) ∧
    (∀ g : Gpio, exec g actuator_task_body LED1_PIN = g LED1_PIN) ∧
    writtenPins processing_task_body = [] ∧
    (∀ g : Gpio, exec g processing_task_body = g) ∧
    (writtenPins sensor_task_body).Disjoint (writtenPins actuator_task_body) ∧
    (writtenPins sensor_task_body).Disjoint (writtenPins processing_task_body) ∧
    (writtenPins actuator_task_body).Disjoint (writtenPins processing_task_body) := by
  have hs : writtenPins sensor_task_body = [LED1_PIN, LED1_PIN] := rfl
  have ha : writtenPins actuator_task_body = [LED2_PIN, LED2_PIN] := rfl
  have hp := writtenPins_processing_task_body
  refine ⟨rfl, rfl, hs, ?_, ?_, ha, ?_, ?_, hp, ?_, ?_, ?_, ?_⟩
  · intro g p hne
    exact exec_of_not_mem_writtenPins _ p (by rw [hs]; simpa using hne) g
  · intro g
    exact exec_of_not_mem_writtenPins _ _ (by rw [hs]; decide) g
  · intro g p hne
    exact exec_of_not_mem_writtenPins _ p (by rw [ha]; simpa using hne) g
  · intro g
    exact exec_of_not_mem_writtenPins _ _ (by rw [ha]; decide) g
  · intro g
    exact exec_of_writtenPins_nil _ hp g
  · rw [hs, ha]; simp [List.Disjoint, LED1_PIN, LED2_PIN]
  · rw [hp]; exact List.disjoint_nil_right _
  · rw [hp]; exact List.disjoint_nil_right _

/-- C9: the delays requested in one pass of `sensor_task` are 100 ms with LED1 at 1
and then 900 ms with LED1 at 0, 1000 ms in all; the delays requested in one pass of
`actuator_task` are 200 ms with LED2 at 1 and then 800 ms with LED2 at 0, 1000 ms in
all; and whatever the pin state before, each pass ends with its own LED pin at 0. -/
theorem sensor_actuator_period :
    delayMsTotal sensor_task_body = 1000 ∧
    delayMsTotal actuator_task_body = 1000 ∧
    (∀ g : Gpio, delayLevels LED1_PIN g sensor_task_body = [(100, 1), (900, 0)]) ∧
    (∀ g : Gpio, delayLevels LED2_PIN g actuator_task_body = [(200, 1), (800, 0)]) ∧
    (∀ g : Gpio, exec g sensor_task_body LED1_PIN = 0) ∧
    (∀ g : Gpio, exec g actuator_task_body LED2_PIN = 0) := by
  refine ⟨rfl, rfl, ?_, ?_, ?_, ?_⟩
  · intro g
    simp [sensor_task_body, delayLevels, step, gpio_set_level]
  · intro g
    simp [actuator_task_body, delayLevels, step, gpio_set_level]
  · intro g
    simp [sensor_task_body, exec, step, gpio_set_level]
  · intro g
    simp [actuator_task_body, exec, step, gpio_set_level]

end Multitask

/-! ## The processing task -/

namespace Multitask

theorem sleepCount_processing_loop : sleepCount processing_loop = 0 := by
  unfold processing_loop
  generalize 500000 = n
  induction n with
  | zero => rfl
  | succ n ih =>
    rw [forLoop, sleepCount_append, ih]
    by_cases h : n % 100000 = 0 <;> simp [processing_loop_body, h, sleepCount]

/-- C7: in one pass of the computation loop of `processing_task` over
i = 0 .. 499999, round `i` calls `vTaskDelay(1)` exactly when `i` is a multiple of
100000, that is for i = 0, 100000, 200000, 300000 and 400000, five calls in all; the
first of them comes right after the store of round 0, before any other work; and the
loop is followed by exactly one millisecond delay, of 500 ms, which ends the pass. -/
theorem processing_yields_five_times :
    (∀ i, i < 500000 →
      (Event.delayTicks 1 ∈ processing_loop_body i ↔ i % 100000 = 0) ∧
      (i % 100000 = 0 ↔ i ∈ [0, 100000, 200000, 300000, 400000]) ∧
      yieldCount 1 (processing_loop_body i) = (if i % 100000 = 0 then 1 else 0)) ∧
    yieldCount 1 processing_loop = 5 ∧
    (∃ rest, processing_loop = .store (dummy 0) :: .delayTicks 1 :: rest) ∧
    processing_task_body
      = [.logI "Processing data..."] ++ processing_loop ++ [.delayMs 500] ∧
    sleepCount processing_loop = 0 ∧
    sleepCount processing_task_body = 1 ∧
    delayMsTotal processing_task_body = 500 ∧
    yieldCount 1 processing_task_body = 5 := by
  have hy : yieldCount 1 processing_loop = 5 := by
    unfold processing_loop
    rw [yieldCount_processing_forLoop]
  refine ⟨?_, hy, ?_, rfl, sleepCount_processing_loop, ?_, ?_, ?_⟩
  · intro i hi
    refine ⟨?_, ?_, ?_⟩
    · by_cases h : i % 100000 = 0 <;> simp [processing_loop_body, h]
    · simp only [List.mem_cons, List.mem_nil_iff, or_false]
      omega
    · by_cases h : i % 100000 = 0 <;> simp [processing_loop_body, h, yieldCount]
  · obtain ⟨rest, hrest⟩ := forLoop_head 499999 processing_loop_body
    refine ⟨rest, ?_⟩
    unfold processing_loop
    rw [hrest]
    simp [processing_loop_body]
  · unfold processing_task_body
    rw [sleepCount_append, sleepCount_append, sleepCount_processing_loop]
    rfl
  · unfold processing_task_body
    rw [delayMsTotal_append, delayMsTotal_append]
    have : delayMsTotal processing_loop = 0 := by
      apply delayMsTotal_forLoop
      intro i
      by_cases h : i % 100000 = 0 <;> simp [processing_loop_body, h, delayMsTotal]
    rw [this]
    rfl
  · unfold processing_task_body
    rw [yieldCount_append, yieldCount_append, hy]
    rfl

/-! ## The emergency task -/

/-- C8, as stated, fails: a pass of `emergency_task` that reads the button as 0
requests 110 ms of sleep before the next button read, not 10 ms. -/
theorem emergency_pressed_sleeps_110 :
    delayMsTotal (emergency_task_body 0) = 110 ∧
    delayMsTotal (emergency_task_body 0) ≠ 10 := by
  rw [delayMsTotal_emergency_task_body]
  decide

/-- C8, amended: one pass of `emergency_task` is determined by the button level it
reads at its start, its only button read.  If the level is 0 the pass sets LED1 and
LED2 to 1, sleeps 100 ms, sets LED1 and LED2 to 0 and sleeps 10 ms; otherwise it
writes no pin and only sleeps 10 ms.  The sleep requested between two consecutive
button reads is therefore 10 ms when the button reads a non-zero level and 110 ms
when it reads 0. -/
theorem emergency_pass (level : Nat) :
    emergency_task_body level
      = (if level = 0 then
          [ .gpioGet BUTTON_PIN 0,
            .logW "EMERGENCY! Button pressed - Immediate response!",
            .gpioSet LED1_PIN 1, .gpioSet LED2_PIN 1, .delayMs 100,
            .gpioSet LED1_PIN 0, .gpioSet LED2_PIN 0, .delayMs 10 ]
        else [.gpioGet BUTTON_PIN level, .delayMs 10]) ∧
    readCount (emergency_task_body level) = 1 ∧
    writtenPins (emergency_task_body level)
      = (if level = 0 then [LED1_PIN, LED2_PIN, LED1_PIN, LED2_PIN] else []) ∧
    delayMsTotal (emergency_task_body level) = (if level = 0 then 110 else 10) := by
  by_cases h : level = 0
  · subst h
    exact ⟨rfl, rfl, rfl, rfl⟩
  · simp [emergency_task_body, h, readCount, writtenPins, delayMsTotal]

end Multitask

/-! ## The simulated computation -/

theorem wrapInt32_eq_self_iff (x : Int) : wrapInt32 x = x ↔ inInt32 x := by
  unfold wrapInt32 inInt32
  constructor
  · intro h
    omega
  · intro h
    omega

theorem inInt32_square_iff (i : Nat) : inInt32 ((i : Int) * (i : Int)) ↔ i ≤ 46340 := by
  unfold inInt32
  constructor
  · intro h
    by_contra hgt
    have h1 : 46341 ≤ i := by omega
    have h2 : 46341 * 46341 ≤ i * i := Nat.mul_le_mul h1 h1
    have h3 : ((46341 * 46341 : Nat) : Int) ≤ ((i * i : Nat) : Int) := by exact_mod_cast h2
    push_cast at h3
    omega
  · intro h
    have h2 : i * i ≤ 46340 * 46340 := Nat.mul_le_mul h h
    have h3 : ((i * i : Nat) : Int) ≤ ((46340 * 46340 : Nat) : Int) := by exact_mod_cast h2
    have h4 : (0 : Int) ≤ ((i * i : Nat) : Int) := Int.ofNat_nonneg _
    push_cast at h3 h4
    constructor <;> omega

/-- The product `i * i` lies within the signed 32-bit range, and the value left in
`dummy` by a wrapping multiplication is the mathematical square of `i`, exactly when
`i` is at most 46340; the stored value itself is always an `int`. -/
theorem square_fits_iff (i : Nat) :
    (inInt32 ((i : Int) * (i : Int)) ↔ i ≤ 46340) ∧
    (dummy i = (i : Int) * (i : Int) ↔ i ≤ 46340) ∧
    inInt32 (dummy i) := by
  refine ⟨inInt32_square_iff i, ?_, ?_⟩
  · unfold dummy
    rw [wrapInt32_eq_self_iff, inInt32_square_iff]
  · unfold dummy wrapInt32 inInt32
    omega

/-- C10: the computation overflows.  Index 46341 is taken by the loop of
`processing_task` and by the loop of the single-task program, its square 2147488281
exceeds the largest `int` 2147483647, and the value a wrapping multiplication stores
in `dummy`, in both loops, is -2147479015 and not the square. -/
theorem square_overflows_at_46341 :
    46341 < 500000 ∧ 46341 < 1000000 ∧
    Event.store (dummy 46341) ∈ Multitask.processing_loop ∧
    Event.store (dummy 46341) ∈ SingleTask.processing_loop ∧
    ¬ inInt32 ((46341 : Int) * 46341) ∧
    dummy 46341 = -2147479015 ∧
    dummy 46341 ≠ (46341 : Int) * 46341 := by
  refine ⟨by decide, by decide, ?_, ?_, by decide, by decide, by decide⟩
  · exact mem_forLoop _ _ 46341 _ (by decide) (by simp [Multitask.processing_loop_body])
  · exact mem_forLoop _ _ 46341 _ (by decide) (by simp [SingleTask.processing_loop_body])

/-! ## The single-task program -/

namespace SingleTask

theorem delayMsTotal_processing_loop : delayMsTotal processing_loop = 0 :=
  delayMsTotal_forLoop _ _ (fun _ => rfl)

theorem readCount_processing_loop : readCount processing_loop = 0 :=
  readCount_forLoop _ _ (fun _ => rfl)

theorem storeCount_processing_loop : storeCount processing_loop = 1000000 :=
  storeCount_forLoop _ _ (fun _ => rfl)

theorem delayMsTotal_app_main_body (level : Nat) :
    delayMsTotal (app_main_body level) = 1600 := by
  unfold app_main_body
  rw [delayMsTotal_append, delayMsTotal_append, delayMsTotal_append,
    delayMsTotal_processing_loop]
  by_cases h : level = 0 <;> simp [h, delayMsTotal]

/-- C4, as stated, fails: the delays requested in one pass of the main loop, here a
pass in which the button reads 1, sum to 1600 ms and not to 1300 ms. -/
theorem single_pass_delay_not_1300 :
    delayMsTotal (app_main_body 1) = 1600 ∧ delayMsTotal (app_main_body 1) ≠ 1300 := by
  rw [delayMsTotal_app_main_body]
  decide

/-- C4, amended: whatever the button level, the timed delays requested during one
full pass of the single-task main loop (500 + 500 + 300 + 300 ms) sum to 1600 ms, and
the pass also runs the 1000000 stores of the heavy loop, so the worst-case button
response latency is 1.6 s plus the computation time of the heavy loop. -/
theorem single_pass_delay (level : Nat) :
    delayMsTotal (app_main_body level) = 500 + 500 + 300 + 300 ∧
    delayMsTotal (app_main_body level) = 1600 ∧
    sleepCount (app_main_body level) = 4 ∧
    storeCount (app_main_body level) = 1000000 := by
  refine ⟨delayMsTotal_app_main_body level, delayMsTotal_app_main_body level, ?_, ?_⟩
  · unfold app_main_body
    rw [sleepCount_append, sleepCount_append,
      sleepCount_append]
    have : sleepCount processing_loop = 0 := by
      unfold processing_loop
      generalize 1000000 = n
      induction n with
      | zero => rfl
      | succ n ih => rw [forLoop, sleepCount_append, ih]; rfl
    rw [this]
    by_cases h : level = 0 <;> simp [h, sleepCount]
  · unfold app_main_body
    rw [storeCount_append, storeCount_append, storeCount_append,
      storeCount_processing_loop]
    by_cases h : level = 0 <;> simp [h, storeCount]

/-- C5: every pass of the single-task main loop reads the button exactly once.  The
read comes after the whole sensor phase, the whole 1000000-round computation loop
and the whole actuator phase (LED2 to 1, 300 ms, LED2 to 0, 300 ms), none of which
reads the button, and it is the last call of the pass apart from the warning log
that reports a read of 0. -/
theorem single_pass_reads_button_last (level : Nat) :
    readCount (app_main_body level) = 1 ∧
    ∃ report,
      app_main_body level
        = ([ .logI "Reading sensor...", .gpioSet LED1_PIN 1, .delayMs 500,
             .gpioSet LED1_PIN 0, .delayMs 500, .logI "Processing data..." ]
            ++ processing_loop
            ++ [ .logI "Controlling actuator...", .gpioSet LED2_PIN 1, .delayMs 300,
                 .gpioSet LED2_PIN 0, .delayMs 300 ])
          ++ [.gpioGet GPIO_NUM_0 level] ++ report ∧
      storeCount processing_loop = 1000000 ∧
      readCount
        ([ .logI "Reading sensor...", .gpioSet LED1_PIN 1, .delayMs 500,
           .gpioSet LED1_PIN 0, .delayMs 500, .logI "Processing data..." ]
          ++ processing_loop
          ++ [ .logI "Controlling actuator...", .gpioSet LED2_PIN 1, .delayMs 300,
               .gpioSet LED2_PIN 0, .delayMs 300 ]) = 0 ∧
      report = (if level = 0 then [.logW "Button pressed! (Delayed response)"] else []) ∧
      report.all Event.isLog = true := by
  constructor
  · unfold app_main_body
    rw [readCount_append, readCount_append, readCount_append, readCount_processing_loop]
    by_cases h : level = 0 <;> simp [h, readCount]
  · refine ⟨_, ?_, storeCount_processing_loop, ?_, rfl, ?_⟩
    · rw [List.append_assoc _ _ [Event.gpioGet GPIO_NUM_0 level]]
      rfl
    · rw [readCount_append, readCount_append, readCount_processing_loop]
      rfl
    · by_cases h : level = 0 <;> simp [h, Event.isLog]

end SingleTask

/-! ## The scheduler: general lemmas -/

namespace Multitask

end Multitask

/-! ## The scheduler: the emergency task within one tick -/

namespace Multitask

theorem dispatch_now (button : Nat → Nat) :
    ∀ (fuel budget : Nat) (s : Sched), (dispatch button fuel budget s).now = s.now := by
  intro fuel
  induction fuel with
  | zero => intro budget s; rfl
  | succ fuel ih =>
    intro budget s
    unfold dispatch
    split
    · rfl
    · split
      · rfl
      · rw [ih]; rfl

end Multitask

/-! ## The scheduler: the emergency task from tick to tick -/

namespace Multitask

end Multitask

/-! ## Response latency of the emergency task -/

namespace Multitask

end Multitask

end Lab1
